import Mathlib

/-!
Verification development for the Blanco Unit BLE client
(`custom_components/blanco_unit/client.py`).

The definitions below are shallow embeddings of the protocol engine:
byte strings are `List Nat` with entries in `0..255`, dictionaries are
association lists, fallible code returns `Except`/`Option`.  Python
standard-library primitives used by the engine (SHA-256, UTF-8
encoding/decoding, JSON parsing) are embedded as executable Lean
functions.
-/

namespace BlancoUnit

/-! ## Bytes and hex helpers -/

/-- The modulus of 32-bit arithmetic. -/
def M32 : Nat := 4294967296

/-- Right rotation of a 32-bit word. -/
def rotr32 (n x : Nat) : Nat := ((x >>> n) ||| (x <<< (32 - n))) % M32

/-- Big-endian byte rendering of `v` on `n` bytes. -/
def beBytes : Nat → Nat → List Nat
  | 0, _ => []
  | n + 1, v => beBytes n (v / 256) ++ [v % 256]

/-- Lowercase hexadecimal digit for a value below 16. -/
def hexChar (n : Nat) : Char :=
  if n < 10 then Char.ofNat (48 + n) else Char.ofNat (87 + n)

/-- Two lowercase hex digits of one byte. -/
def byteHex (b : Nat) : List Char := [hexChar (b / 16), hexChar (b % 16)]

/-- Lowercase hex string of a byte string (Python `hexdigest`). -/
def hexdigest (bs : List Nat) : String := ⟨bs.flatMap byteHex⟩

/-- UTF-8 encoding of one Unicode code point. -/
def utf8Char (c : Nat) : List Nat :=
  if c < 128 then [c]
  else if c < 2048 then
    [192 ||| (c >>> 6), 128 ||| (c &&& 63)]
  else if c < 65536 then
    [224 ||| (c >>> 12), 128 ||| ((c >>> 6) &&& 63), 128 ||| (c &&& 63)]
  else
    [240 ||| (c >>> 18), 128 ||| ((c >>> 12) &&& 63),
     128 ||| ((c >>> 6) &&& 63), 128 ||| (c &&& 63)]

/-- UTF-8 bytes of a string (Python `str.encode("utf-8")`). -/
def strBytes (s : String) : List Nat := s.data.flatMap (fun ch => utf8Char ch.toNat)

/-! ## SHA-256 (Python `hashlib.sha256`) -/

/-- SHA-256 round constants (FIPS 180-4, written in decimal). -/
def shaK : List Nat :=
  [1116352408, 1899447441, 3049323471, 3921009573, 961987163,
   1508970993, 2453635748, 2870763221, 3624381080, 310598401,
   607225278, 1426881987, 1925078388, 2162078206, 2614888103,
   3248222580, 3835390401, 4022224774, 264347078, 604807628,
   770255983, 1249150122, 1555081692, 1996064986, 2554220882,
   2821834349, 2952996808, 3210313671, 3336571891, 3584528711,
   113926993, 338241895, 666307205, 773529912, 1294757372,
   1396182291, 1695183700, 1986661051, 2177026350, 2456956037,
   2730485921, 2820302411, 3259730800, 3345764771, 3516065817,
   3600352804, 4094571909, 275423344, 430227734, 506948616,
   659060556, 883997877, 958139571, 1322822218, 1537002063,
   1747873779, 1955562222, 2024104815, 2227730452, 2361852424,
   2428436474, 2756734187, 3204031479, 3329325298]

/-- SHA-256 initial hash value (FIPS 180-4, written in decimal). -/
def shaH0 : List Nat :=
  [1779033703, 3144134277, 1013904242, 2773480762,
   1359893119, 2600822924, 528734635, 1541459225]

/-- Bitwise complement of a 32-bit word. -/
def not32 (x : Nat) : Nat := Nat.xor x (M32 - 1)

/-- SHA-256 choice function. -/
def shaCh (x y z : Nat) : Nat := Nat.xor (Nat.land x y) (Nat.land (not32 x) z)

/-- SHA-256 majority function. -/
def shaMaj (x y z : Nat) : Nat :=
  Nat.xor (Nat.xor (Nat.land x y) (Nat.land x z)) (Nat.land y z)

/-- SHA-256 big sigma 0. -/
def bSig0 (x : Nat) : Nat := Nat.xor (Nat.xor (rotr32 2 x) (rotr32 13 x)) (rotr32 22 x)

/-- SHA-256 big sigma 1. -/
def bSig1 (x : Nat) : Nat := Nat.xor (Nat.xor (rotr32 6 x) (rotr32 11 x)) (rotr32 25 x)

/-- SHA-256 small sigma 0. -/
def sSig0 (x : Nat) : Nat := Nat.xor (Nat.xor (rotr32 7 x) (rotr32 18 x)) (x >>> 3)

/-- SHA-256 small sigma 1. -/
def sSig1 (x : Nat) : Nat := Nat.xor (Nat.xor (rotr32 17 x) (rotr32 19 x)) (x >>> 10)

/-- SHA-256 padding: append `0x80`, zeros, then the 64-bit bit length. -/
def shaPad (msg : List Nat) : List Nat :=
  let l := msg.length
  let k := (119 - l % 64) % 64
  msg ++ [0x80] ++ List.replicate k 0 ++ beBytes 8 (8 * l)

/-- Group a byte string into 32-bit big-endian words. -/
def beWords : List Nat → List Nat
  | b0 :: b1 :: b2 :: b3 :: rest =>
      (((b0 * 256 + b1) * 256 + b2) * 256 + b3) :: beWords rest
  | _ => []

/-- Split a list into blocks of 64 bytes (fuel-driven). -/
def chunks64Go : Nat → List Nat → List (List Nat)
  | 0, _ => []
  | _, [] => []
  | f + 1, l => l.take 64 :: chunks64Go f (l.drop 64)

/-- Extend the 16-word message schedule to `16 + fuel` words. -/
def shaExtend : Nat → List Nat → List Nat
  | 0, w => w
  | f + 1, w =>
      let n := w.length
      let t := (sSig1 (w.getD (n - 2) 0) + w.getD (n - 7) 0 +
                sSig0 (w.getD (n - 15) 0) + w.getD (n - 16) 0) % M32
      shaExtend f (w ++ [t])

/-- One SHA-256 compression round; state is the `(a,b,c,d,e,f,g,h)` tuple,
the input pairs a round constant with a schedule word. -/
def shaRound (st : Nat × Nat × Nat × Nat × Nat × Nat × Nat × Nat)
    (kw : Nat × Nat) : Nat × Nat × Nat × Nat × Nat × Nat × Nat × Nat :=
  let (a, b, c, d, e, f, g, h) := st
  let t1 := (h + bSig1 e + shaCh e f g + kw.1 + kw.2) % M32
  let t2 := (bSig0 a + shaMaj a b c) % M32
  ((t1 + t2) % M32, a, b, c, (d + t1) % M32, e, f, g)

/-- Compress one 64-byte block into the running hash value. -/
def shaBlock (h : List Nat) (block : List Nat) : List Nat :=
  let w := shaExtend 48 (beWords block)
  let init := (h.getD 0 0, h.getD 1 0, h.getD 2 0, h.getD 3 0,
               h.getD 4 0, h.getD 5 0, h.getD 6 0, h.getD 7 0)
  let (a, b, c, d, e, f, g, hh) := (shaK.zip w).foldl shaRound init
  [(h.getD 0 0 + a) % M32, (h.getD 1 0 + b) % M32, (h.getD 2 0 + c) % M32,
   (h.getD 3 0 + d) % M32, (h.getD 4 0 + e) % M32, (h.getD 5 0 + f) % M32,
   (h.getD 6 0 + g) % M32, (h.getD 7 0 + hh) % M32]

/-- SHA-256 digest of a byte string, as 32 bytes. -/
def sha256Bytes (msg : List Nat) : List Nat :=
  let padded := shaPad msg
  let blocks := chunks64Go padded.length padded
  (blocks.foldl shaBlock shaH0).flatMap (beBytes 4)

/-- Embeds `_BlancoUnitProtocol.calculate_token` (client.py lines 199-203):
`hex(sha256(hex(sha256(utf8(pin))) ++ utf8(salt)))`. -/
def calculate_token (pin salt : String) : String :=
  let pin_hash := hexdigest (sha256Bytes (strBytes pin))
  let combined := pin_hash ++ salt
  hexdigest (sha256Bytes (strBytes combined))

/-! ## Frame codec -/

/-- Continuation packets of `_BlancoUnitProtocol.create_packets` (client.py
lines 224-231): the `while offset < len(payload_bytes)` loop, here driven by
the remaining byte list.  `fuel` is an upper bound on the number of loop
iterations (the byte count suffices whenever `next_cap ≥ 1`, which holds in
every caller since the MTU is at least 10). -/
def contPackets (msg_id next_cap : Nat) : Nat → Nat → List Nat → List (List Nat)
  | 0, _, _ => []
  | _ + 1, _, [] => []
  | fuel + 1, idx, b :: bs =>
      ([msg_id, idx] ++ (b :: bs).take next_cap) ::
        contPackets msg_id next_cap fuel (idx + 1) ((b :: bs).drop next_cap)

/-- Embeds `_BlancoUnitProtocol.create_packets` (client.py lines 205-233).
The source first serializes `json_data` to compact JSON; this embedding takes
those serialized payload bytes as input and performs the sentinel append,
capacity computation and fragmentation exactly as the source does.  The
source builds each packet with Python `bytes([...])`, which raises
`ValueError` when the declared total or the message id does not fit in one
byte; that failure is the `none` result here. -/
def create_packets (payload : List Nat) (mtu : Nat) (msg_id : Nat) :
    Option (List (List Nat)) :=
  let payload_bytes := payload ++ [0x00, 0xFF]
  let first_cap := mtu - 5
  let next_cap := mtu - 2
  let total :=
    if payload_bytes.length ≤ first_cap then 1
    else 1 + (payload_bytes.length - first_cap + next_cap - 1) / next_cap
  if 256 ≤ total ∨ 256 ≤ msg_id then none
  else
    some (([0xFF, 0x00, total, msg_id, 0x00] ++ payload_bytes.take first_cap) ::
      contPackets msg_id next_cap payload_bytes.length 1
        (payload_bytes.drop first_cap))

/-- Python `payload.split(b"\x00")[0]`: the prefix of a byte string before
its first `0x00` byte (the whole string when no `0x00` occurs). -/
def takeUntilZero : List Nat → List Nat
  | [] => []
  | b :: rest => if b = 0 then [] else b :: takeUntilZero rest

/-- Failure modes of `_BlancoUnitProtocol.parse_response`:
`invalidHeader` and `chunkIdMismatch` and `malformedJson` are the three
`ValueError`s of the source; `indexError` is a Python `IndexError` from an
out-of-range byte access on a degenerate (empty or too-short) chunk. -/
inductive PErr where
  | invalidHeader
  | chunkIdMismatch
  | malformedJson
  | indexError
deriving DecidableEq, Repr

/-- The continuation loop of `parse_response` (client.py lines 243-246):
checks each further chunk's leading byte against the header's message id and
accumulates the chunk bodies. -/
def collectPayload (msg_id : Nat) : List Nat → List (List Nat) →
    Except PErr (List Nat)
  | payload, [] => .ok payload
  | payload, c :: rest =>
      match c.head? with
      | none => .error .indexError
      | some b =>
          if b ≠ msg_id then .error .chunkIdMismatch
          else collectPayload msg_id (payload ++ c.drop 2) rest

/-- Byte-level part of `_BlancoUnitProtocol.parse_response` (client.py lines
235-248): header validation, chunk-id checks, body concatenation, and the
split at the first `0x00` byte.  The JSON decoding of the result is layered
on top in `parse_response`. -/
def reassemble_clean (raw_chunks : List (List Nat)) : Except PErr (List Nat) :=
  match raw_chunks with
  | [] => .error .invalidHeader
  | c0 :: rest =>
      match c0.head? with
      | none => .error .indexError
      | some b0 =>
          if b0 ≠ 0xFF then .error .invalidHeader
          else
            match c0[3]? with
            | none => .error .indexError
            | some msg_id => (collectPayload msg_id (c0.drop 5) rest).map takeUntilZero

/-! ## JSON values and `json.loads`

The responses handled by the engine are JSON documents.  Integer numbers —
the only numbers the protocol inspects (`err_code`, `val` fields, …) — are
carried as `Int`.  Non-integral numeric literals (a fraction or exponent
part, and the `NaN`/`Infinity`/`-Infinity` extensions `json.loads` accepts)
are recognized by exactly the `json.loads` grammar but carried as their
verbatim source token: their IEEE-754 value is not shallow-embeddable, and
the engine never computes with them. -/

/-- JSON values as decoded by `json.loads`; `float` holds the verbatim
token of a non-integral numeric literal. -/
inductive Json where
  | null
  | bool (b : Bool)
  | num (n : Int)
  | float (lit : String)
  | str (s : String)
  | arr (elems : List Json)
  | obj (fields : List (String × Json))

/-- Whether a byte is a UTF-8 continuation byte. -/
def isCont (b : Nat) : Bool := 0x80 ≤ b && b ≤ 0xBF

/-- Strict UTF-8 decoding (Python `bytes.decode("utf-8")`), rejecting
truncated sequences, stray continuation bytes, overlong forms and
surrogates; `fuel` bounds the recursion (the byte count suffices). -/
def utf8DecodeGo : Nat → List Nat → Option (List Char)
  | _, [] => some []
  | 0, _ => none
  | f + 1, b :: rest =>
      if b < 0x80 then (utf8DecodeGo f rest).map (Char.ofNat b :: ·)
      else if 0xC2 ≤ b && b ≤ 0xDF then
        match rest with
        | b1 :: rest1 =>
            if isCont b1 then
              (utf8DecodeGo f rest1).map
                (Char.ofNat ((b - 0xC0) * 64 + (b1 - 0x80)) :: ·)
            else none
        | _ => none
      else if 0xE0 ≤ b && b ≤ 0xEF then
        match rest with
        | b1 :: b2 :: rest2 =>
            let okB1 :=
              if b = 0xE0 then 0xA0 ≤ b1 && b1 ≤ 0xBF
              else if b = 0xED then 0x80 ≤ b1 && b1 ≤ 0x9F
              else isCont b1
            if okB1 && isCont b2 then
              (utf8DecodeGo f rest2).map
                (Char.ofNat (((b - 0xE0) * 64 + (b1 - 0x80)) * 64 + (b2 - 0x80)) :: ·)
            else none
        | _ => none
      else if 0xF0 ≤ b && b ≤ 0xF4 then
        match rest with
        | b1 :: b2 :: b3 :: rest3 =>
            let okB1 :=
              if b = 0xF0 then 0x90 ≤ b1 && b1 ≤ 0xBF
              else if b = 0xF4 then 0x80 ≤ b1 && b1 ≤ 0x8F
              else isCont b1
            if okB1 && isCont b2 && isCont b3 then
              (utf8DecodeGo f rest3).map
                (Char.ofNat ((((b - 0xF0) * 64 + (b1 - 0x80)) * 64 + (b2 - 0x80)) * 64
                  + (b3 - 0x80)) :: ·)
            else none
        | _ => none
      else none

/-- Strict UTF-8 decoding of a byte string. -/
def utf8Decode (bs : List Nat) : Option (List Char) := utf8DecodeGo bs.length bs

/-- JSON insignificant whitespace skipping. -/
def jws : List Char → List Char
  | c :: rest =>
      if c = ' ' || c = '\t' || c = '\n' || c = '\r' then jws rest else c :: rest
  | [] => []

/-- Consume an expected literal suffix such as `ull` of `null`. -/
def expectLit : List Char → List Char → Option (List Char)
  | [], cs => some cs
  | l :: ls, c :: cs => if c = l then expectLit ls cs else none
  | _ :: _, [] => none

/-- Split off the leading decimal-digit run of a character list. -/
def takeDigits : List Char → List Char × List Char
  | c :: cs =>
      if c.isDigit then
        let (d, r) := takeDigits cs
        (c :: d, r)
      else ([], c :: cs)
  | [] => ([], [])

/-- Value of a decimal digit run. -/
def digitsVal (ds : List Char) : Nat :=
  ds.foldl (fun a c => a * 10 + (c.toNat - 48)) 0

/-- Fraction group of the `json.loads` number token, the regex part
`(\.\d+)?`: the consumed characters and the remainder; nothing is consumed
when the group does not match (a dot not followed by a digit is left in
place, so `1.` fails at the enclosing grammar exactly as in Python). -/
def fracPart : List Char → List Char × List Char
  | '.' :: c :: rest =>
      if c.isDigit then
        let (ds, r) := takeDigits (c :: rest)
        ('.' :: ds, r)
      else ([], '.' :: c :: rest)
  | cs => ([], cs)

/-- Exponent group of the `json.loads` number token, the regex part
`([eE][-+]?\d+)?`: consumed characters and remainder, consuming nothing when
the group does not match (so `1e` and `1e+` fail at the enclosing grammar). -/
def expPart : List Char → List Char × List Char
  | e :: s :: rest =>
      if e = 'e' ∨ e = 'E' then
        if s = '+' ∨ s = '-' then
          match rest with
          | d :: _ =>
              if d.isDigit then
                let (ds, r) := takeDigits rest
                (e :: s :: ds, r)
              else ([], e :: s :: rest)
          | [] => ([], e :: s :: rest)
        else if s.isDigit then
          let (ds, r) := takeDigits (s :: rest)
          (e :: ds, r)
        else ([], e :: s :: rest)
      else ([], e :: s :: rest)
  | cs => ([], cs)

/-- Assemble a parsed numeric literal: with no fraction and no exponent it
is the integer (`parse_int`); otherwise the token is a float, kept
verbatim. -/
def numToken (sign : Bool) (intDs fr ex : List Char) : Json :=
  if fr.isEmpty && ex.isEmpty then
    Json.num (if sign then -(digitsVal intDs : Int) else (digitsVal intDs : Int))
  else
    Json.float ⟨(if sign then ['-'] else []) ++ intDs ++ fr ++ ex⟩

/-- The `json.loads` number token, its scanner regex
`-?(0|[1-9][0-9]*)(\.\d+)?([eE][-+]?\d+)?` with maximal munch: a leading
zero immediately followed by a digit ends the integer part after the zero,
so a document like `01` fails at the enclosing grammar exactly as in
Python. -/
def parseNumber (cs : List Char) : Option (Json × List Char) :=
  let sgn : Bool × List Char :=
    match cs with
    | c :: rest => if c = '-' then (true, rest) else (false, cs)
    | [] => (false, [])
  match sgn.2 with
  | c :: rest =>
      if c = '0' then
        let (fr, r1) := fracPart rest
        let (ex, r2) := expPart r1
        some (numToken sgn.1 ['0'] fr ex, r2)
      else if c.isDigit then
        let (ds, r0) := takeDigits (c :: rest)
        let (fr, r1) := fracPart r0
        let (ex, r2) := expPart r1
        some (numToken sgn.1 ds fr ex, r2)
      else none
  | [] => none

/-- Opening curly bracket character. -/
def lbrace : Char := Char.ofNat 123

/-- Closing curly bracket character. -/
def rbrace : Char := Char.ofNat 125

/-- Value of one hexadecimal digit character. -/
def hexVal (c : Char) : Option Nat :=
  if '0' ≤ c ∧ c ≤ '9' then some (c.toNat - 48)
  else if 'a' ≤ c ∧ c ≤ 'f' then some (c.toNat - 87)
  else if 'A' ≤ c ∧ c ≤ 'F' then some (c.toNat - 55)
  else none

/-- Resolve a single-character JSON string escape. -/
def escChar (e : Char) : Option Char :=
  if e = '"' then some '"'
  else if e = '\\' then some '\\'
  else if e = '/' then some '/'
  else if e = 'b' then some (Char.ofNat 8)
  else if e = 'f' then some (Char.ofNat 12)
  else if e = 'n' then some '\n'
  else if e = 'r' then some '\r'
  else if e = 't' then some '\t'
  else none

/-- Parse the body of a JSON string after the opening quote; returns the
content and the characters after the closing quote. -/
def parseStrGo : Nat → List Char → Option (List Char × List Char)
  | 0, _ => none
  | f + 1, cs =>
      match cs with
      | [] => none
      | c :: rest =>
          if c = '"' then some ([], rest)
          else if c = '\\' then
            match rest with
            | e :: r2 =>
                if e = 'u' then
                  match r2 with
                  | h1 :: h2 :: h3 :: h4 :: r3 =>
                      match hexVal h1, hexVal h2, hexVal h3, hexVal h4 with
                      | some v1, some v2, some v3, some v4 =>
                          (parseStrGo f r3).map
                            (fun p => (Char.ofNat (((v1 * 16 + v2) * 16 + v3) * 16 + v4) :: p.1, p.2))
                      | _, _, _, _ => none
                  | _ => none
                else
                  match escChar e with
                  | some ec => (parseStrGo f r2).map (fun p => (ec :: p.1, p.2))
                  | none => none
            | [] => none
          else if c.toNat < 32 then none
          else (parseStrGo f rest).map (fun p => (c :: p.1, p.2))

/-- Parse a JSON string body, fuel taken from the input length. -/
def parseStr (cs : List Char) : Option (List Char × List Char) :=
  parseStrGo (cs.length + 1) cs

mutual

/-- Recursive-descent parser for a JSON value, following the `json.loads`
grammar: the literals `null`/`true`/`false`, strings with escapes, arrays,
objects, the full number token (integers and floats), and the constants
`NaN`/`Infinity`/`-Infinity` that `json.loads` accepts by default.  `fuel`
bounds the nesting recursion; the input length suffices since every nesting
level consumes at least one character. -/
def parseVal : Nat → List Char → Option (Json × List Char)
  | 0, _ => none
  | f + 1, cs =>
      match jws cs with
      | [] => none
      | c :: rest =>
          if c = 'n' then (expectLit ['u', 'l', 'l'] rest).map (fun r => (Json.null, r))
          else if c = 't' then
            (expectLit ['r', 'u', 'e'] rest).map (fun r => (Json.bool true, r))
          else if c = 'f' then
            (expectLit ['a', 'l', 's', 'e'] rest).map (fun r => (Json.bool false, r))
          else if c = '"' then
            (parseStr rest).map (fun p => (Json.str ⟨p.1⟩, p.2))
          else if c = '[' then
            match jws rest with
            | d :: r2 =>
                if d = ']' then some (Json.arr [], r2)
                else (parseElems f (d :: r2)).map (fun p => (Json.arr p.1, p.2))
            | [] => none
          else if c = lbrace then
            match jws rest with
            | d :: r2 =>
                if d = rbrace then some (Json.obj [], r2)
                else (parseFields f (d :: r2)).map (fun p => (Json.obj p.1, p.2))
            | [] => none
          else if c = 'N' then
            (expectLit ['a', 'N'] rest).map (fun r => (Json.float "NaN", r))
          else if c = 'I' then
            (expectLit ['n', 'f', 'i', 'n', 'i', 't', 'y'] rest).map
              (fun r => (Json.float "Infinity", r))
          else if c = '-' then
            match rest with
            | 'I' :: r2 =>
                (expectLit ['n', 'f', 'i', 'n', 'i', 't', 'y'] r2).map
                  (fun r => (Json.float "-Infinity", r))
            | _ => parseNumber (c :: rest)
          else if c.isDigit then parseNumber (c :: rest)
          else none

/-- Parse the comma-separated elements of a nonempty JSON array, up to and
including the closing bracket. -/
def parseElems : Nat → List Char → Option (List Json × List Char)
  | 0, _ => none
  | f + 1, cs =>
      match parseVal f cs with
      | none => none
      | some (v, r) =>
          match jws r with
          | d :: r2 =>
              if d = ',' then (parseElems f r2).map (fun p => (v :: p.1, p.2))
              else if d = ']' then some ([v], r2)
              else none
          | [] => none

/-- Parse the comma-separated fields of a nonempty JSON object, up to and
including the closing brace. -/
def parseFields : Nat → List Char → Option (List (String × Json) × List Char)
  | 0, _ => none
  | f + 1, cs =>
      match jws cs with
      | c :: r =>
          if c = '"' then
            match parseStr r with
            | none => none
            | some (k, r1) =>
                match jws r1 with
                | d :: r2 =>
                    if d = ':' then
                      match parseVal f r2 with
                      | none => none
                      | some (v, r3) =>
                          match jws r3 with
                          | e :: r4 =>
                              if e = ',' then
                                (parseFields f r4).map (fun p => ((⟨k⟩, v) :: p.1, p.2))
                              else if e = rbrace then some ([(⟨k⟩, v)], r4)
                              else none
                          | [] => none
                    else none
                | [] => none
          else none
      | [] => none

end

/-- Embeds `json.loads` on the decoded characters: one JSON document with
only whitespace around it. -/
def json_parse_chars (cs : List Char) : Option Json :=
  match parseVal (cs.length + 1) cs with
  | some (j, r) => if jws r = [] then some j else none
  | none => none

/-- Embeds `clean.decode("utf-8")` followed by `json.loads` (client.py line
250); any decoding or parsing failure is `none`. -/
def json_loads (bs : List Nat) : Option Json :=
  (utf8Decode bs).bind json_parse_chars

/-- Embeds `_BlancoUnitProtocol.parse_response` (client.py lines 235-253):
byte-level reassembly followed by JSON decoding, every decoding failure
surfacing as the `malformedJson` error. -/
def parse_response (raw_chunks : List (List Nat)) : Except PErr Json :=
  match reassemble_clean raw_chunks with
  | .error e => .error e
  | .ok clean =>
      match json_loads clean with
      | some j => .ok j
      | none => .error .malformedJson

/-! ## Response inspection and the transaction step -/

/-- Lookup of a key in a JSON object association list (first match, as in a
Python dict whose keys are unique). -/
def py_lookup (fields : List (String × Json)) (k : String) : Option Json :=
  match fields with
  | [] => none
  | (k2, v) :: rest => if k2 = k then some v else py_lookup rest k

/-- Embeds `_BlancoUnitProtocol.extract_pars` (client.py lines 255-262).
The source's `response` is annotated `dict[str, Any]`, so the input here is
an association list.  Shapes on which the source would raise (a non-dict
`body` under `in`, a truthy non-list `results`, a non-dict first result)
fall to the `{}` default here; every theorem below pins the shapes it uses. -/
def extract_pars (response : List (String × Json)) : Json :=
  match py_lookup response "body" with
  | some (.obj body) =>
      match py_lookup body "pars" with
      | some p => p
      | none =>
          match py_lookup body "results" with
          | some (.arr (r :: _)) =>
              match r with
              | .obj rf =>
                  match py_lookup rf "pars" with
                  | some p => p
                  | none => .obj []
              | _ => .obj []
          | _ => .obj []
  | _ => .obj []

/-- Embeds `_BlancoUnitProtocol.extract_errors` (client.py lines 264-267):
`pars.get("errs", [])`.  A non-object `pars` or a non-list `errs` value
would raise in the source and falls to `[]` here. -/
def extract_errors (response : List (String × Json)) : List Json :=
  match extract_pars response with
  | .obj fields =>
      match py_lookup fields "errs" with
      | some (.arr l) => l
      | _ => []
  | _ => []

/-- Errors raised by the client around a transaction. -/
inductive ClientError where
  | authenticationError (msg : String)
  | attributeError
deriving DecidableEq, Repr

/-- The error-checking loop of `BlancoUnitBluetoothClient._execute_transaction`
(client.py lines 493-498): scan the extracted error list, raising
`BlancoUnitAuthenticationError` at the first entry whose `err_code` is `4`.
A non-dict entry makes `error.get` raise `AttributeError` in the source. -/
def check_errors : List Json → Except ClientError Unit
  | [] => .ok ()
  | e :: rest =>
      match e with
      | .obj fields =>
          match py_lookup fields "err_code" with
          | some (.num 4) =>
              .error (.authenticationError "Authentication error during operation")
          | _ => check_errors rest
      | _ => .error .attributeError

/-- Session data cached by the client while connected (the source's
`_BlancoUnitSessionData`; the live transport and protocol handles are I/O
objects and are not part of the data model). -/
structure SessionData where
  dev_id : String
deriving DecidableEq, Repr

/-- Embeds the post-I/O part of
`BlancoUnitBluetoothClient._execute_transaction` (client.py lines 474-500)
for an already-connected client: given the cached session and the reassembled
response, either raise `AuthenticationError` or pass the response through.
The second component is the client's `_session_data` after the call: the
source never touches it in this method, so it is returned unchanged on both
paths (only the transport's disconnect callback ever clears it). -/
def execute_transaction_step (s : SessionData) (response : List (String × Json)) :
    Except ClientError (List (String × Json)) × Option SessionData :=
  match check_errors (extract_errors response) with
  | .error e => (.error e, some s)
  | .ok _ => (.ok response, some s)

/-! ## The response read loop -/

/-- Embeds the `while` loop of `_BlancoUnitProtocol.read_response_chunks`
(client.py lines 271-288).  `reads i` is the outcome of the `i`-th
`read_gatt_char` call (`.error` for a raised exception, `.ok` for returned
bytes); `fuel` is the remaining attempt budget (`max_attempts - attempts`,
initially 40).  Returns the collected chunks, the expected total, and the
index after the last read performed.  An exception or an `IndexError` from
`data[0]`/`data[2]` on short data leaves the loop immediately (the source's
`except ... break`), without counting an attempt. -/
def read_loop (reads : Nat → Except Unit (List Nat)) :
    Nat → Nat → List (List Nat) → Nat → List Nat →
      List (List Nat) × Nat × Nat
  | 0, idx, chunks, expected, _ => (chunks, expected, idx)
  | fuel + 1, idx, chunks, expected, last =>
      if chunks.length < expected then
        match reads idx with
        | .error _ => (chunks, expected, idx + 1)
        | .ok data =>
            if data ≠ last then
              match data with
              | [] => (chunks ++ [data], expected, idx + 1)
              | b0 :: _ =>
                  if b0 = 0xFF then
                    match data[2]? with
                    | none => (chunks ++ [data], expected, idx + 1)
                    | some t => read_loop reads fuel (idx + 1) (chunks ++ [data]) t data
                  else read_loop reads fuel (idx + 1) (chunks ++ [data]) expected data
            else read_loop reads fuel (idx + 1) chunks expected last
      else (chunks, expected, idx)

/-- Embeds `_BlancoUnitProtocol.read_response_chunks` (client.py lines
269-295): run the bounded poll loop, then raise
`TimeoutError("Incomplete response: got .../... chunks")` — carrying the got
and expected counts — when the collected chunks do not match the declared
total. -/
def read_response_chunks (reads : Nat → Except Unit (List Nat)) :
    Except (Nat × Nat) (List (List Nat)) :=
  let r := read_loop reads 40 0 [] 1 []
  if r.1.length ≠ r.2.1 then .error (r.1.length, r.2.1) else .ok r.1

/-! ## Request envelopes -/

/-- Little-endian decimal digits of `n`, fuel-driven (`n` itself is enough
fuel since each step divides by 10). -/
def decDigitsRev : Nat → Nat → List Nat
  | 0, _ => []
  | f + 1, n => if n = 0 then [] else n % 10 :: decDigitsRev f (n / 10)

/-- Decimal rendering of a natural number, as in a Python f-string. -/
def decimalString (n : Nat) : String :=
  if n = 0 then "0"
  else ⟨(decDigitsRev n n).reverse.map (fun d => Char.ofNat (48 + d))⟩

/-- Embeds the `_RequestMeta` dataclass (client.py lines 61-76); `evt_ts` is
the wall-clock timestamp captured at construction, a parameter here. -/
structure RequestMeta where
  evt_type : Nat
  dev_id : Option String
  dev_type : Nat := 1
  evt_ver : Nat := 1
  evt_ts : Int

/-- Embeds `_RequestMeta.to_dict`: `asdict` in field order, then the
`dev_id` entry deleted when it is `None`. -/
def RequestMeta.to_dict (m : RequestMeta) : List (String × Json) :=
  [("evt_type", Json.num m.evt_type)] ++
    (match m.dev_id with
     | some d => [("dev_id", Json.str d)]
     | none => []) ++
    [("dev_type", Json.num m.dev_type), ("evt_ver", Json.num m.evt_ver),
     ("evt_ts", Json.num m.evt_ts)]

/-- Embeds the `_RequestBody` dataclass (client.py lines 79-94). -/
structure RequestBody where
  meta : RequestMeta
  opts : Option (List (String × Int)) := none
  pars : Option (List (String × Json)) := none

/-- Embeds `_RequestBody.to_dict`: always the `meta` key; the `opts` and
`pars` keys only when the fields are truthy, i.e. present and a nonempty
map (`if self.opts:` is false both for `None` and for `{}`). -/
def RequestBody.to_dict (b : RequestBody) : List (String × Json) :=
  [("meta", Json.obj b.meta.to_dict)] ++
    (match b.opts with
     | some l => if l.isEmpty then [] else [("opts", Json.obj (l.map (fun p => (p.1, Json.num p.2))))]
     | none => []) ++
    (match b.pars with
     | some l => if l.isEmpty then [] else [("pars", Json.obj l)]
     | none => [])

/-- Embeds the `_RequestEnvelope` dataclass (client.py lines 97-117). -/
structure RequestEnvelope where
  session : Nat
  id : Nat
  token : String
  salt : String
  body : RequestBody
  type : Nat := 1

/-- Embeds the envelope construction of `_BlancoUnitProtocol.send_request`
(client.py lines 328-352): the pure part before the transport writes.  The
random `req_id` drawn by `random.randint(1000000, 9999999)` and the
timestamp are parameters. -/
def build_request_envelope (session_id req_id : Nat) (pin : String)
    (dev_id : String) (evt_type : Nat) (ctrl : Option Int)
    (pars : Option (List (String × Json))) (ts : Int) : RequestEnvelope :=
  let meta : RequestMeta := { evt_type := evt_type, dev_id := some dev_id, evt_ts := ts }
  let opts_dict : Option (List (String × Int)) := ctrl.map (fun c => [("ctrl", c)])
  let body : RequestBody := { meta := meta, opts := opts_dict, pars := pars }
  let salt := decimalString session_id ++ decimalString req_id
  let token := calculate_token pin salt
  { session := session_id, id := req_id, token := token, salt := salt, body := body }

/-- Embeds the envelope construction of
`_BlancoUnitProtocol.send_pairing_request` (client.py lines 297-310):
`evt_type = 10`, no device id, an empty `pars` map. -/
def build_pairing_envelope (session_id req_id : Nat) (pin : String)
    (ts : Int) : RequestEnvelope :=
  let meta : RequestMeta := { evt_type := 10, dev_id := none, evt_ts := ts }
  let body : RequestBody := { meta := meta, pars := some [] }
  let salt := decimalString session_id ++ decimalString req_id
  let token := calculate_token pin salt
  { session := session_id, id := req_id, token := token, salt := salt, body := body }

/-! ## Typed operations: local validation before any transport I/O -/

/-- ASCII decimal digit test, used to state what the spec calls "5 ASCII
digits". -/
def isAsciiDigit (c : Char) : Bool := 48 ≤ c.toNat && c.toNat ≤ 57

/-- The complete list of code point ranges (inclusive) accepted by Python
`str.isdigit`: every character whose Unicode numeric type is Decimal or
Digit, Unicode 14.0.0 as shipped with CPython.  It spans the ASCII digits,
the superscript and subscript digits (U+00B2/B3/B9, U+2070, U+2074..U+2079,
U+2080..U+2089), every script's decimal digit block (Arabic-Indic, Devanagari,
…, fullwidth U+FF10..U+FF19), the circled/parenthesized digits, the
mathematical digit styles and the segmented digits. -/
def pyDigitRanges : List (Nat × Nat) :=
  [(48, 57), (178, 179), (185, 185), (1632, 1641), (1776, 1785),
   (1984, 1993), (2406, 2415), (2534, 2543), (2662, 2671), (2790, 2799),
   (2918, 2927), (3046, 3055), (3174, 3183), (3302, 3311), (3430, 3439),
   (3558, 3567), (3664, 3673), (3792, 3801), (3872, 3881), (4160, 4169),
   (4240, 4249), (4969, 4977), (6112, 6121), (6160, 6169), (6470, 6479),
   (6608, 6618), (6784, 6793), (6800, 6809), (6992, 7001), (7088, 7097),
   (7232, 7241), (7248, 7257), (8304, 8304), (8308, 8313), (8320, 8329),
   (9312, 9320), (9332, 9340), (9352, 9360), (9450, 9450), (9461, 9469),
   (9471, 9471), (10102, 10110), (10112, 10120), (10122, 10130),
   (42528, 42537), (43216, 43225), (43264, 43273), (43472, 43481),
   (43504, 43513), (43600, 43609), (44016, 44025), (65296, 65305),
   (66720, 66729), (68160, 68163), (68912, 68921), (69216, 69224),
   (69714, 69722), (69734, 69743), (69872, 69881), (69942, 69951),
   (70096, 70105), (70384, 70393), (70736, 70745), (70864, 70873),
   (71248, 71257), (71360, 71369), (71472, 71481), (71904, 71913),
   (72016, 72025), (72784, 72793), (73040, 73049), (73120, 73129),
   (92768, 92777), (92864, 92873), (93008, 93017), (120782, 120831),
   (123200, 123209), (123632, 123641), (125264, 125273), (127232, 127242),
   (130032, 130041)]

/-- Embeds Python `str.isdigit` for one character: membership in the full
Unicode table above. -/
def py_isdigit (c : Char) : Bool :=
  pyDigitRanges.any (fun r => decide (r.1 ≤ c.toNat ∧ c.toNat ≤ r.2))

/-- Local validation failure (`ValueError` in the source, the spec's
`InvalidArgument`). -/
inductive OpError where
  | invalidArgument (msg : String)
deriving DecidableEq, Repr

/-- The `evt_type`/`ctrl`/`pars` triple handed to `_execute_transaction` by a
typed operation once its local validation has passed. -/
structure OpRequest where
  evt_type : Nat
  ctrl : Option Int
  pars : List (String × Json)

/-- Embeds the pre-I/O phase of `BlancoUnitBluetoothClient.set_temperature`
(client.py lines 580-598) together with `_SetTemperaturePars.to_pars`: range
check first, transaction parameters second.  A `.error` result means the
`ValueError` was raised before any transport write or read. -/
def set_temperature_request (cooling_celsius : Int) : Except OpError OpRequest :=
  if ¬(4 ≤ cooling_celsius ∧ cooling_celsius ≤ 10) then
    .error (.invalidArgument "Temperature must be between 4 and 10°C")
  else
    .ok { evt_type := 7, ctrl := some 5,
          pars := [("set_point_cooling", Json.obj [("val", Json.num cooling_celsius)]),
                   ("set_point_heating", Json.obj [("val", Json.num 65)])] }

/-- Embeds the pre-I/O phase of `BlancoUnitBluetoothClient.set_water_hardness`
(client.py lines 600-615) with `_SetWaterHardnessPars.to_pars` (lines
135-145): `to_pars` is evaluated before `_execute_transaction` is entered,
so its `ValueError` precedes all I/O. -/
def set_water_hardness_request (level : Int) : Except OpError OpRequest :=
  if ¬(1 ≤ level ∧ level ≤ 9) then
    .error (.invalidArgument "Hardness level must be 1-9")
  else
    .ok { evt_type := 7, ctrl := some 5,
          pars := [("wtr_hardness", Json.obj [("val", Json.num level)])] }

/-- Embeds the pre-I/O phase of `BlancoUnitBluetoothClient.change_pin`
(client.py lines 617-635) with `_ChangePinPars.to_pars` (lines 148-158):
`len(new_pin) != 5 or not new_pin.isdigit()` raises before all I/O. -/
def change_pin_request (new_pin : String) : Except OpError OpRequest :=
  if new_pin.length ≠ 5 ∨ ¬ new_pin.data.all py_isdigit then
    .error (.invalidArgument "PIN must be 5 digits")
  else
    .ok { evt_type := 7, ctrl := some 13, pars := [("new_pass", Json.str new_pin)] }

/-- Embeds the pre-I/O phase of `BlancoUnitBluetoothClient.dispense_water`
(client.py lines 637-662) with `_DispensePars.to_pars`: the three range
checks in source order, all before any I/O. -/
def dispense_water_request (amount_ml co2_intensity : Int) : Except OpError OpRequest :=
  if ¬(100 ≤ amount_ml ∧ amount_ml ≤ 1500) then
    .error (.invalidArgument "Amount must be between 100ml and 1500ml")
  else if amount_ml % 100 ≠ 0 then
    .error (.invalidArgument "Amount must be a multiple of 100ml")
  else if ¬(co2_intensity = 1 ∨ co2_intensity = 2 ∨ co2_intensity = 3) then
    .error (.invalidArgument "CO2 intensity must be 1 (still), 2 (medium), or 3 (high)")
  else
    .ok { evt_type := 7, ctrl := some 1000,
          pars := [("disp_amt", Json.num amount_ml), ("co2_int", Json.num co2_intensity)] }

/-! ## Codec lemmas -/

/-- Collecting the bodies of the continuation packets restores the
fragmented byte suffix. -/
theorem collect_contPackets (m nc : Nat) (hnc : 1 ≤ nc) :
    ∀ fuel rest idx acc, rest.length ≤ fuel →
      collectPayload m acc (contPackets m nc fuel idx rest) = .ok (acc ++ rest) := by
  intro fuel
  induction fuel with
  | zero =>
    intro rest idx acc h
    have hr : rest = [] := List.eq_nil_of_length_eq_zero (Nat.le_zero.mp h)
    subst hr
    simp [contPackets, collectPayload]
  | succ f ih =>
    intro rest idx acc h
    cases rest with
    | nil => simp [contPackets, collectPayload]
    | cons b bs =>
      rw [contPackets, collectPayload]
      simp only [List.cons_append, List.head?_cons]
      rw [if_neg (by simp)]
      have hlen : ((b :: bs).drop nc).length ≤ f := by
        simp only [List.length_drop]
        simp only [List.length_cons] at h ⊢
        omega
      rw [ih ((b :: bs).drop nc) (idx + 1) _ hlen]
      simp [List.take_append_drop]

/-- Arithmetic step of the packet count: slicing off one `nc`-sized chunk
from `L` remaining bytes accounts for one packet of the ceiling division. -/
theorem ceil_slice_step (L nc : Nat) (hnc : 1 ≤ nc) (hL : 1 ≤ L) :
    (L - nc + nc - 1) / nc + 1 = (L + nc - 1) / nc := by
  have step : (L + nc - 1) / nc = (L - 1) / nc + 1 := by
    rw [show L + nc - 1 = (L - 1) + nc by omega]
    exact Nat.add_div_right _ (by omega)
  rcases le_or_lt nc L with h1 | h1
  · rw [show L - nc + nc - 1 = L - 1 by omega, step]
  · rw [show L - nc + nc - 1 = nc - 1 by omega, step,
        Nat.div_eq_of_lt (by omega : nc - 1 < nc),
        Nat.div_eq_of_lt (by omega : L - 1 < nc)]

/-- The continuation loop emits one packet per `next_cap`-sized slice of the
remaining bytes. -/
theorem contPackets_length (m nc : Nat) (hnc : 1 ≤ nc) :
    ∀ fuel rest idx, rest.length ≤ fuel →
      (contPackets m nc fuel idx rest).length = (rest.length + nc - 1) / nc := by
  intro fuel
  induction fuel with
  | zero =>
    intro rest idx h
    have hr : rest = [] := List.eq_nil_of_length_eq_zero (Nat.le_zero.mp h)
    subst hr
    simp [contPackets, Nat.div_eq_of_lt (by omega : nc - 1 < nc)]
  | succ f ih =>
    intro rest idx h
    cases rest with
    | nil => simp [contPackets, Nat.div_eq_of_lt (by omega : nc - 1 < nc)]
    | cons b bs =>
      rw [contPackets]
      have hlen : ((b :: bs).drop nc).length ≤ f := by
        simp only [List.length_drop]
        simp only [List.length_cons] at h ⊢
        omega
      simp only [List.length_cons, ih _ (idx + 1) hlen, List.length_drop]
      exact ceil_slice_step (bs.length + 1) nc hnc (by omega)

/-- Shape of the `j`-th continuation packet: leading byte the message id,
second byte the sequence index, then the corresponding payload slice. -/
theorem contPackets_getElem (m nc : Nat) :
    ∀ fuel rest idx j c,
      (contPackets m nc fuel idx rest)[j]? = some c →
      c = [m, idx + j] ++ (rest.drop (j * nc)).take nc := by
  intro fuel
  induction fuel with
  | zero =>
    intro rest idx j c hc
    cases rest <;> simp [contPackets] at hc
  | succ f ih =>
    intro rest idx j c hc
    cases rest with
    | nil => simp [contPackets] at hc
    | cons b bs =>
      rw [contPackets] at hc
      cases j with
      | zero =>
        simp only [List.getElem?_cons_zero, Option.some.injEq] at hc
        subst hc
        simp
      | succ j =>
        simp only [List.getElem?_cons_succ] at hc
        have hrec := ih ((b :: bs).drop nc) (idx + 1) j c hc
        rw [hrec, List.drop_drop]
        have h1 : idx + 1 + j = idx + (j + 1) := by omega
        have h2 : nc + j * nc = (j + 1) * nc := by ring
        rw [h1, h2]

/-- Splitting at the first `0x00` byte recovers a `0x00`-free prefix. -/
theorem takeUntilZero_append (p rest : List Nat) (hp : ∀ b ∈ p, b ≠ 0) :
    takeUntilZero (p ++ 0 :: rest) = p := by
  induction p with
  | nil => simp [takeUntilZero]
  | cons b bs ih =>
    have hb : b ≠ 0 := hp b (by simp)
    simp only [List.cons_append, takeUntilZero, if_neg hb, List.append_eq]
    rw [ih (fun x hx => hp x (by simp [hx]))]

/-! ## Claim C1: fragment/reassemble round trip -/

/-- C1 (counterexample): the round trip does not return every payload byte
string.  A payload containing a `0x00` byte — here the one-byte payload
`[0x00]`, fragmented at MTU 20 — is truncated by the split at the first
`0x00` during reassembly: the codec returns the empty payload instead of
`[0x00]`. -/
theorem c1_roundtrip_counterexample :
    create_packets [0] 20 1 = some [[255, 0, 1, 1, 0, 0, 0, 255]] ∧
    reassemble_clean [[255, 0, 1, 1, 0, 0, 0, 255]] = Except.ok [] ∧
    (Except.ok [] : Except PErr (List Nat)) ≠ Except.ok [0] := by
  refine ⟨rfl, rfl, by simp⟩

/-- Reassembling a header packet (with any declared-total byte) followed by
the continuation packets of the fragmentation loop recovers a `0x00`-free
payload. -/
theorem reassemble_packets (payload : List Nat) (mtu msg_id total fuel : Nat)
    (hmtu : 10 ≤ mtu) (hnz : ∀ b ∈ payload, b ≠ 0)
    (hfuel : ((payload ++ [0, 255]).drop (mtu - 5)).length ≤ fuel) :
    reassemble_clean
      (([255, 0, total, msg_id, 0] ++ (payload ++ [0, 255]).take (mtu - 5)) ::
        contPackets msg_id (mtu - 2) fuel 1 ((payload ++ [0, 255]).drop (mtu - 5))) =
      Except.ok payload := by
  have hnc : 1 ≤ mtu - 2 := by omega
  simp only [reassemble_clean, List.cons_append, List.head?_cons,
    List.getElem?_cons_succ, List.getElem?_cons_zero, List.drop_succ_cons,
    List.drop_zero, ne_eq, not_true_eq_false, if_false]
  rw [collect_contPackets msg_id (mtu - 2) hnc fuel _ 1 _ hfuel]
  simp only [List.nil_append, List.take_append_drop, Except.map]
  rw [takeUntilZero_append payload [255] hnz]

/-- C1 (amended): for every payload byte string containing no `0x00` byte
(which holds for every compact JSON serialization, the only payloads the
source fragments) and every MTU ≥ 10, reassembling the packets produced by
`create_packets` recovers exactly the original payload, the appended
`0x00 0xFF` sentinel stripped by the split at the first `0x00`. -/
theorem c1_fragment_reassemble_roundtrip (payload : List Nat) (mtu msg_id : Nat)
    (pks : List (List Nat)) (hmtu : 10 ≤ mtu) (hnz : ∀ b ∈ payload, b ≠ 0)
    (h : create_packets payload mtu msg_id = some pks) :
    reassemble_clean pks = Except.ok payload := by
  have hlen : ((payload ++ [0, 255]).drop (mtu - 5)).length ≤
      (payload ++ [0, 255]).length := by
    simp [List.length_drop]
  simp only [create_packets] at h
  split at h
  · split at h
    · simp at h
    · rw [Option.some.injEq] at h
      subst h
      exact reassemble_packets payload mtu msg_id _ _ hmtu hnz hlen
  · split at h
    · simp at h
    · rw [Option.some.injEq] at h
      subst h
      exact reassemble_packets payload mtu msg_id _ _ hmtu hnz hlen

/-- C1 (witness): the amended round trip at the six-byte payload
`"ABCDEF"`, MTU 10, message id 3, which fragments into two packets. -/
theorem c1_roundtrip_witness :
    reassemble_clean [[255, 0, 2, 3, 0, 65, 66, 67, 68, 69], [3, 1, 70, 0, 255]] =
      Except.ok [65, 66, 67, 68, 69, 70] :=
  c1_fragment_reassemble_roundtrip [65, 66, 67, 68, 69, 70] 10 3 _
    (by omega) (by decide) (by decide)

/-! ## Claim C2: packet count and packet layout -/

/-- Shape facts about a fragmented packet list: its length matches the
ceiling formula, the header packet carries that length as its declared
total, and the `j`-th continuation packet is `[msg_id, j+1]` followed by its
payload slice. -/
theorem packets_shape (payload : List Nat) (mtu msg_id total fuel : Nat)
    (hmtu : 10 ≤ mtu)
    (hfuel : ((payload ++ [0, 255]).drop (mtu - 5)).length ≤ fuel)
    (htot : total =
      1 + (payload.length + 2 - (mtu - 5) + (mtu - 2) - 1) / (mtu - 2))
    (pks : List (List Nat))
    (hpks : pks =
      ([255, 0, total, msg_id, 0] ++ (payload ++ [0, 255]).take (mtu - 5)) ::
        contPackets msg_id (mtu - 2) fuel 1 ((payload ++ [0, 255]).drop (mtu - 5))) :
    pks.length =
      1 + (payload.length + 2 - (mtu - 5) + (mtu - 2) - 1) / (mtu - 2) ∧
    pks[0]? =
      some ([255, 0, pks.length, msg_id, 0] ++ (payload ++ [0, 255]).take (mtu - 5)) ∧
    ∀ j c, pks[j + 1]? = some c →
      c = [msg_id, j + 1] ++
        (((payload ++ [0, 255]).drop (mtu - 5)).drop (j * (mtu - 2))).take (mtu - 2) := by
  subst hpks
  have hnc : 1 ≤ mtu - 2 := by omega
  have hcl := contPackets_length msg_id (mtu - 2) hnc fuel _ 1 hfuel
  have hlen : ((payload ++ [0, 255]).drop (mtu - 5)).length =
      payload.length + 2 - (mtu - 5) := by
    simp [List.length_drop, List.length_append]
  have hcount :
      (([255, 0, total, msg_id, 0] ++ (payload ++ [0, 255]).take (mtu - 5)) ::
        contPackets msg_id (mtu - 2) fuel 1
          ((payload ++ [0, 255]).drop (mtu - 5))).length =
      1 + (payload.length + 2 - (mtu - 5) + (mtu - 2) - 1) / (mtu - 2) := by
    simp only [List.length_cons, hcl, hlen]
    exact Nat.add_comm _ 1
  refine ⟨hcount, ?_, ?_⟩
  · simp only [List.getElem?_cons_zero, hcount, ← htot]
  · intro j c hc
    simp only [List.getElem?_cons_succ] at hc
    have hshape := contPackets_getElem msg_id (mtu - 2) fuel _ 1 j c hc
    rw [hshape, Nat.add_comm 1 j]

/-- C2: for every payload byte string and MTU ≥ 10, whenever `create_packets`
returns a packet list (the declared total and the message id fit in one
byte), the list's length is `1 + ceil(max(0, len(payload)+2-first_cap)/next_cap)`
with `first_cap = mtu-5` and `next_cap = mtu-2` (the `+2` is the appended
sentinel); the first packet is `[0xFF, 0x00, total, msg_id, 0x00, ...]` with
`total` the packet count, and the `j`-th continuation packet is
`[msg_id, j+1, ...payload slice]`, indexed from 1. -/
theorem c2_fragment_packet_count (payload : List Nat) (mtu msg_id : Nat)
    (pks : List (List Nat)) (hmtu : 10 ≤ mtu)
    (h : create_packets payload mtu msg_id = some pks) :
    pks.length =
      1 + (payload.length + 2 - (mtu - 5) + (mtu - 2) - 1) / (mtu - 2) ∧
    pks[0]? =
      some ([255, 0, pks.length, msg_id, 0] ++ (payload ++ [0, 255]).take (mtu - 5)) ∧
    ∀ j c, pks[j + 1]? = some c →
      c = [msg_id, j + 1] ++
        (((payload ++ [0, 255]).drop (mtu - 5)).drop (j * (mtu - 2))).take (mtu - 2) := by
  have hnc : 1 ≤ mtu - 2 := by omega
  simp only [create_packets] at h
  split at h
  · split at h
    · simp at h
    · rw [Option.some.injEq] at h
      rename_i hcond _
      have hz : payload.length + 2 - (mtu - 5) = 0 := by
        simp only [List.length_append, List.length_cons, List.length_nil] at hcond
        omega
      refine packets_shape payload mtu msg_id 1 _ hmtu (by simp) ?_ pks h.symm
      rw [hz, Nat.zero_add, Nat.div_eq_of_lt (by omega : mtu - 2 - 1 < mtu - 2)]
  · split at h
    · simp at h
    · rw [Option.some.injEq] at h
      refine packets_shape payload mtu msg_id _ _ hmtu (by simp) ?_ pks h.symm
      simp [List.length_append]

/-- C2 (witness): the six-byte payload `"ABCDEF"` at MTU 10, message id 4
fragments into two packets of the stated shape. -/
theorem c2_fragment_packet_count_witness :
    ([[255, 0, 2, 4, 0, 65, 66, 67, 68, 69], [4, 1, 70, 0, 255]] :
        List (List Nat)).length =
      1 + (([65, 66, 67, 68, 69, 70] : List Nat).length + 2 - (10 - 5) + (10 - 2) - 1) /
        (10 - 2) ∧
    ([[255, 0, 2, 4, 0, 65, 66, 67, 68, 69], [4, 1, 70, 0, 255]] :
        List (List Nat))[0]? =
      some ([255, 0, ([[255, 0, 2, 4, 0, 65, 66, 67, 68, 69], [4, 1, 70, 0, 255]] :
          List (List Nat)).length, 4, 0] ++
        (([65, 66, 67, 68, 69, 70] : List Nat) ++ [0, 255]).take (10 - 5)) ∧
    ∀ j c, ([[255, 0, 2, 4, 0, 65, 66, 67, 68, 69], [4, 1, 70, 0, 255]] :
        List (List Nat))[j + 1]? = some c →
      c = [4, j + 1] ++
        (((([65, 66, 67, 68, 69, 70] : List Nat) ++ [0, 255]).drop (10 - 5)).drop
          (j * (10 - 2))).take (10 - 2) :=
  c2_fragment_packet_count [65, 66, 67, 68, 69, 70] 10 4 _ (by omega) (by decide)

/-! ## Claim C3: token derivation -/

set_option maxRecDepth 100000

/-- C3: `calculate_token` is the pure function
`hex(sha256(hex(sha256(utf8(pin))) ++ utf8(salt)))` — deterministic and
side-effect-free, so equal calls yield equal results — and on the concrete
pin `"12345"` with salt `"1234567 7654321"` it yields the fixed 64-character
lowercase-hex string computed here (cross-checked against `hashlib`). -/
theorem c3_derive_token :
    (∀ p s : String, calculate_token p s = calculate_token p s) ∧
    calculate_token "12345" "1234567 7654321" =
      "3d28908844164ca1fcb343f8d3e751196866ebbaf397ef71ca701fb422af7f94" ∧
    (calculate_token "12345" "1234567 7654321").length = 64 ∧
    (calculate_token "12345" "1234567 7654321").data.all
      (fun c => c.isDigit || (97 ≤ c.toNat && c.toNat ≤ 102)) = true := by
  refine ⟨fun p s => rfl, ?_, ?_, ?_⟩ <;> decide

/-! ## Claim C4: authentication-error correlation -/

/-- Scanning an error list of objects that contains an `err_code == 4` entry
raises the authentication error. -/
theorem check_errors_finds_auth (errs : List Json)
    (hobj : ∀ e ∈ errs, ∃ f, e = Json.obj f)
    (h4 : ∃ f, Json.obj f ∈ errs ∧ py_lookup f "err_code" = some (Json.num 4)) :
    check_errors errs =
      Except.error (ClientError.authenticationError
        "Authentication error during operation") := by
  induction errs with
  | nil =>
    obtain ⟨f, hf, -⟩ := h4
    simp at hf
  | cons e rest ih =>
    obtain ⟨fe, rfl⟩ := hobj e (by simp)
    rw [check_errors]
    split
    · rfl
    · rename_i hne
      obtain ⟨f, hf, hcode⟩ := h4
      rcases List.mem_cons.mp hf with heq | hmem
      · exfalso
        obtain ⟨rfl⟩ := Json.obj.inj heq.symm
        exact hne hcode
      · exact ih (fun x hx => hobj x (by simp [hx])) ⟨f, hmem, hcode⟩

/-- C4 (counterexample): a response carrying `body.pars.errs` with an entry
`err_code == 4` makes `_execute_transaction` raise `AuthenticationError`,
but the session is NOT cleared: `_session_data` (and with it the cached
device id) survives the call, contradicting the claimed transition to
`Disconnected`. -/
theorem c4_auth_error_counterexample :
    (execute_transaction_step ⟨"device123"⟩
        [("body", Json.obj [("pars", Json.obj [("errs",
          Json.arr [Json.obj [("err_code", Json.num 4)]])])])]).1 =
      Except.error (ClientError.authenticationError
        "Authentication error during operation") ∧
    (execute_transaction_step ⟨"device123"⟩
        [("body", Json.obj [("pars", Json.obj [("errs",
          Json.arr [Json.obj [("err_code", Json.num 4)]])])])]).2 =
      some ⟨"device123"⟩ ∧
    (some (⟨"device123"⟩ : SessionData)) ≠ none :=
  ⟨rfl, rfl, by simp⟩

/-- C4 (amended): for every connected session and every response whose
extracted error list (from `body.pars.errs` or the alternate
`body.results[0].pars.errs` shape) consists of objects and contains an entry
with `err_code == 4`, the transaction raises `AuthenticationError` — but the
session data, including the cached device id, is left in place; the source
never transitions to `Disconnected` or clears the device id here (only the
transport's disconnect callback does). -/
theorem c4_auth_error_raises (s : SessionData) (response : List (String × Json))
    (hobj : ∀ e ∈ extract_errors response, ∃ f, e = Json.obj f)
    (h4 : ∃ f, Json.obj f ∈ extract_errors response ∧
      py_lookup f "err_code" = some (Json.num 4)) :
    execute_transaction_step s response =
      (Except.error (ClientError.authenticationError
        "Authentication error during operation"), some s) := by
  unfold execute_transaction_step
  rw [check_errors_finds_auth _ hobj h4]

/-- C4 (witness): the amended theorem at a concrete session and the
alternate `body.results[0].pars.errs` response shape. -/
theorem c4_auth_error_witness :
    execute_transaction_step ⟨"device123"⟩
      [("body", Json.obj [("results", Json.arr [Json.obj [("pars",
        Json.obj [("errs", Json.arr [Json.obj [("err_code", Json.num 4)]])])]])])] =
      (Except.error (ClientError.authenticationError
        "Authentication error during operation"), some ⟨"device123"⟩) :=
  c4_auth_error_raises ⟨"device123"⟩ _
    (by
      intro e he
      rw [show extract_errors
          [("body", Json.obj [("results", Json.arr [Json.obj [("pars",
            Json.obj [("errs", Json.arr [Json.obj [("err_code", Json.num 4)]])])]])])] =
          [Json.obj [("err_code", Json.num 4)]] from rfl] at he
      simp at he
      exact ⟨_, he⟩)
    ⟨[("err_code", Json.num 4)],
      by
        rw [show extract_errors
            [("body", Json.obj [("results", Json.arr [Json.obj [("pars",
              Json.obj [("errs", Json.arr [Json.obj [("err_code", Json.num 4)]])])]])])] =
            [Json.obj [("err_code", Json.num 4)]] from rfl]
        simp,
      rfl⟩

/-! ## Claims C5 and C6: the bounded response read loop -/

/-- The read loop performs at most `fuel` further transport reads. -/
theorem read_loop_calls (reads : Nat → Except Unit (List Nat)) :
    ∀ fuel idx chunks expected last,
      (read_loop reads fuel idx chunks expected last).2.2 ≤ idx + fuel := by
  intro fuel
  induction fuel with
  | zero =>
    intro idx chunks expected last
    simp [read_loop]
  | succ f ih =>
    intro idx chunks expected last
    rw [read_loop]
    split
    · split
      · simp
      · split
        · split
          · simp
          · split
            · split
              · simp
              · exact le_trans (ih _ _ _ _) (by omega)
            · exact le_trans (ih _ _ _ _) (by omega)
        · exact le_trans (ih _ _ _ _) (by omega)
    · simp

/-- The read loop only appends a read that differs from the previous one, so
the collected chunk list never carries two equal adjacent entries. -/
theorem read_loop_chain (reads : Nat → Except Unit (List Nat)) :
    ∀ fuel idx chunks expected last,
      List.Chain' (· ≠ ·) chunks →
      (chunks.getLast? = some last ∨ chunks = []) →
      List.Chain' (· ≠ ·) (read_loop reads fuel idx chunks expected last).1 := by
  intro fuel
  induction fuel with
  | zero =>
    intro idx chunks expected last hch _
    simpa [read_loop] using hch
  | succ f ih =>
    intro idx chunks expected last hch hlast
    rw [read_loop]
    split
    · split
      · exact hch
      · rename_i data hreadeq
        split
        · rename_i hne
          have hch2 : List.Chain' (· ≠ ·) (chunks ++ [data]) := by
            apply List.Chain'.append hch (List.chain'_singleton data)
            intro x hx y hy
            simp only [List.head?_cons, Option.mem_def, Option.some.injEq] at hy
            subst hy
            rcases hlast with hl | hl
            · rw [hl] at hx
              simp only [Option.mem_def, Option.some.injEq] at hx
              subst hx
              exact fun hxy => hne hxy.symm
            · subst hl
              simp at hx
          have hlast2 : (chunks ++ [data]).getLast? = some data ∨
              chunks ++ [data] = [] := Or.inl (by simp)
          split
          · exact hch2
          · split
            · split
              · exact hch2
              · exact ih _ _ _ _ hch2 hlast2
            · exact ih _ _ _ _ hch2 hlast2
        · exact ih _ _ _ _ hch hlast
    · exact hch

/-- C5 (counterexample): an exception on the very first transport read
aborts the read loop at once — the loop performs exactly one read of its
40-attempt budget and the call fails with `IncompleteResponse(got 0,
expected 1)` even though a complete one-chunk response was available from
the second read onward.  This contradicts the claim that a throwing read is
swallowed, counted as one attempt and never fatal by itself. -/
theorem c5_read_exception_counterexample :
    read_response_chunks
        (fun i => if i = 0 then Except.error () else Except.ok [255, 0, 1, 7, 0, 65]) =
      Except.error (0, 1) ∧
    (read_loop
        (fun i => if i = 0 then Except.error () else Except.ok [255, 0, 1, 7, 0, 65])
        40 0 [] 1 []).2.2 = 1 :=
  ⟨rfl, rfl⟩

/-- C5 (amended): an exception raised by an individual transport read breaks
the poll loop immediately — nothing is appended, the attempt counter is not
advanced, and the loop returns after that single read; the transaction then
fails with `IncompleteResponse` whenever the chunks collected so far fall
short of the expected total. -/
theorem c5_read_exception_aborts (reads : Nat → Except Unit (List Nat))
    (fuel idx : Nat) (chunks : List (List Nat)) (expected : Nat) (last : List Nat)
    (hneed : chunks.length < expected) (hread : reads idx = Except.error ()) :
    read_loop reads (fuel + 1) idx chunks expected last = (chunks, expected, idx + 1) := by
  rw [read_loop, if_pos hneed, hread]

/-- C5 (witness): the amended abort behavior on a transport whose reads
always throw, starting from the loop's initial state. -/
theorem c5_read_exception_aborts_witness :
    read_loop (fun _ => Except.error ()) 40 0 [] 1 [] = ([], 1, 1) :=
  c5_read_exception_aborts (fun _ => Except.error ()) 39 0 [] 1 [] (by decide) rfl

/-- C6: the response read loop polls the transport at most 40 times; it
appends a read only when it differs from the immediately preceding one, so
no two adjacent collected chunks are equal; and on a transport that forever
returns one header chunk declaring `total = 2` (with the expected count
taken from byte index 2 of that `0xFF`-led chunk), the budget is exhausted
after the single deduplicated chunk and the call fails with
`IncompleteResponse(got 1, expected 2)`. -/
theorem c6_read_poll_loop :
    (∀ reads, (read_loop reads 40 0 [] 1 []).2.2 ≤ 40) ∧
    (∀ reads, List.Chain' (· ≠ ·) (read_loop reads 40 0 [] 1 []).1) ∧
    read_response_chunks (fun _ => Except.ok [255, 0, 2, 5, 0]) =
      Except.error (1, 2) :=
  ⟨fun reads => le_trans (read_loop_calls reads 40 0 [] 1 []) (by omega),
   fun reads => read_loop_chain reads 40 0 [] 1 [] (by simp) (Or.inr rfl),
   rfl⟩

/-! ## Claim C7: reassembly failure taxonomy -/

/-- A continuation list of nonempty chunks among which some chunk's leading
byte differs from the message id makes the collection loop fail with the
chunk-id mismatch error. -/
theorem collectPayload_mismatch (m : Nat) :
    ∀ (rest : List (List Nat)) (acc : List Nat),
      (∀ c ∈ rest, c ≠ []) →
      (∃ c ∈ rest, c.head? ≠ some m) →
      collectPayload m acc rest = .error .chunkIdMismatch := by
  intro rest
  induction rest with
  | nil =>
    intro acc _ hex
    obtain ⟨c, hc, -⟩ := hex
    simp at hc
  | cons c cs ih =>
    intro acc hne hex
    obtain ⟨b, bs, rfl⟩ : ∃ b bs, c = b :: bs := by
      cases c with
      | nil => exact absurd rfl (hne [] (by simp))
      | cons b bs => exact ⟨b, bs, rfl⟩
    rw [collectPayload]
    simp only [List.head?_cons]
    by_cases hbm : b = m
    · subst hbm
      rw [if_neg (by simp)]
      apply ih
      · intro x hx
        exact hne x (by simp [hx])
      · obtain ⟨d, hd, hdm⟩ := hex
        rcases List.mem_cons.mp hd with rfl | hmem
        · exact absurd List.head?_cons hdm
        · exact ⟨d, hmem, hdm⟩
    · rw [if_pos hbm]

/-- C7: the three reassembly failures of `parse_response`.  A first chunk
led by a byte other than `0xFF` fails with `InvalidHeader`; with a valid
header, a continuation chunk whose leading byte differs from byte index 3 of
the header fails with `ChunkIdMismatch`; and with all continuation ids
matching, a concatenated payload whose prefix before the first `0x00` does
not parse as JSON fails with `MalformedJson`. -/
theorem c7_parse_failures :
    (∀ (c0 : List Nat) (rest : List (List Nat)) (b0 : Nat),
      c0.head? = some b0 → b0 ≠ 255 →
      parse_response (c0 :: rest) = .error .invalidHeader) ∧
    (∀ (c0 : List Nat) (rest : List (List Nat)) (msg_id : Nat),
      c0.head? = some 255 → c0[3]? = some msg_id →
      (∀ c ∈ rest, c ≠ []) →
      (∃ c ∈ rest, c.head? ≠ some msg_id) →
      parse_response (c0 :: rest) = .error .chunkIdMismatch) ∧
    (∀ (chunks : List (List Nat)) (clean : List Nat),
      reassemble_clean chunks = .ok clean → json_loads clean = none →
      parse_response chunks = .error .malformedJson) := by
  refine ⟨?_, ?_, ?_⟩
  · intro c0 rest b0 hhead hne
    have hre : reassemble_clean (c0 :: rest) = .error .invalidHeader := by
      unfold reassemble_clean
      dsimp only
      rw [hhead]
      dsimp only
      exact if_pos hne
    unfold parse_response
    rw [hre]
  · intro c0 rest msg_id hhead h3 hne hex
    have hre : reassemble_clean (c0 :: rest) = .error .chunkIdMismatch := by
      unfold reassemble_clean
      dsimp only
      rw [hhead]
      dsimp only
      rw [if_neg (by simp), h3]
      dsimp only
      rw [collectPayload_mismatch msg_id rest _ hne hex]
      rfl
    unfold parse_response
    rw [hre]
  · intro chunks clean hre hjson
    unfold parse_response
    rw [hre]
    dsimp only
    rw [hjson]

/-- C7 (witness): the three failures at concrete chunk lists — a header not
led by `0xFF`; a two-chunk stream whose continuation id `8` differs from the
header id `7`; and a valid single-chunk stream whose empty payload is not a
JSON document. -/
theorem c7_parse_failures_witness :
    parse_response [[1, 2, 3, 4, 5]] = .error .invalidHeader ∧
    parse_response [[255, 0, 2, 7, 0, 65], [8, 1, 66]] = .error .chunkIdMismatch ∧
    parse_response [[255, 0, 1, 7, 0]] = .error .malformedJson :=
  ⟨c7_parse_failures.1 [1, 2, 3, 4, 5] [] 1 rfl (by decide),
   c7_parse_failures.2.1 [255, 0, 2, 7, 0, 65] [[8, 1, 66]] 7 rfl rfl
     (by
       intro c hc
       simp only [List.mem_singleton] at hc
       subst hc
       simp)
     ⟨[8, 1, 66], by simp, by simp⟩,
   c7_parse_failures.2.2 [[255, 0, 1, 7, 0]] [] rfl rfl⟩

/-! ## Claim C8: envelope salt and token invariant -/

/-- A number with `k+1` decimal digits yields a digit list of length `k+1`. -/
theorem decDigitsRev_length (k : Nat) :
    ∀ f n, 10 ^ k ≤ n → n < 10 ^ (k + 1) → k < f →
      (decDigitsRev f n).length = k + 1 := by
  induction k with
  | zero =>
    intro f n h1 h2 hf
    obtain ⟨g, rfl⟩ : ∃ g, f = g + 1 := ⟨f - 1, by omega⟩
    rw [decDigitsRev, if_neg (by simp at h1; omega)]
    have hdiv : n / 10 = 0 := Nat.div_eq_of_lt (by simpa using h2)
    rw [hdiv]
    cases g with
    | zero => simp [decDigitsRev]
    | succ g2 => simp [decDigitsRev]
  | succ k ih =>
    intro f n h1 h2 hf
    obtain ⟨g, rfl⟩ : ∃ g, f = g + 1 := ⟨f - 1, by omega⟩
    have hpow : 0 < 10 ^ (k + 1) := Nat.pos_pow_of_pos _ (by omega)
    rw [decDigitsRev, if_neg (by omega)]
    simp only [List.length_cons]
    rw [ih g (n / 10) ?_ ?_ (by omega)]
    · exact (Nat.le_div_iff_mul_le (by omega)).mpr (by rw [← Nat.pow_succ]; exact h1)
    · exact (Nat.div_lt_iff_lt_mul (by omega)).mpr (by rw [← Nat.pow_succ]; exact h2)

/-- A 7-digit number renders as a 7-character decimal string. -/
theorem decimalString_length_seven (n : Nat) (h1 : 1000000 ≤ n) (h2 : n ≤ 9999999) :
    (decimalString n).length = 7 := by
  rw [decimalString, if_neg (by omega)]
  show ((decDigitsRev n n).reverse.map _).length = 7
  rw [List.length_map, List.length_reverse]
  have e1 : (10 : Nat) ^ 6 = 1000000 := by norm_num
  have e2 : (10 : Nat) ^ 7 = 10000000 := by norm_num
  exact decDigitsRev_length 6 n n (by omega) (by omega) (by omega)

/-- C8: every envelope the protocol builds — for a pairing request and for a
general typed-operation request alike — carries
`salt = "{session_id}{transaction_id}"` byte-for-byte (the two decimal
strings concatenated), a token derived by `calculate_token` from the pin and
exactly that salt, and the session and transaction ids themselves; and for
the `random.randint(1000000, 9999999)` ranges drawn by the source, both ids
render as 7-digit strings. -/
theorem c8_envelope_salt_invariant (session_id req_id : Nat) (pin dev_id : String)
    (evt_type : Nat) (ctrl : Option Int) (pars : Option (List (String × Json)))
    (ts ts2 : Int)
    (hs1 : 1000000 ≤ session_id) (hs2 : session_id ≤ 9999999)
    (hr1 : 1000000 ≤ req_id) (hr2 : req_id ≤ 9999999) :
    ((build_request_envelope session_id req_id pin dev_id evt_type ctrl pars ts).salt =
        decimalString session_id ++ decimalString req_id ∧
      (build_request_envelope session_id req_id pin dev_id evt_type ctrl pars ts).token =
        calculate_token pin
          (build_request_envelope session_id req_id pin dev_id evt_type ctrl pars ts).salt ∧
      (build_request_envelope session_id req_id pin dev_id evt_type ctrl pars ts).session =
        session_id ∧
      (build_request_envelope session_id req_id pin dev_id evt_type ctrl pars ts).id =
        req_id) ∧
    ((build_pairing_envelope session_id req_id pin ts2).salt =
        decimalString session_id ++ decimalString req_id ∧
      (build_pairing_envelope session_id req_id pin ts2).token =
        calculate_token pin (build_pairing_envelope session_id req_id pin ts2).salt) ∧
    (decimalString session_id).length = 7 ∧
    (decimalString req_id).length = 7 :=
  ⟨⟨rfl, rfl, rfl, rfl⟩, ⟨rfl, rfl⟩,
   decimalString_length_seven session_id hs1 hs2,
   decimalString_length_seven req_id hr1 hr2⟩

/-- C8 (witness): the invariant at session id 1234567, transaction id
7654321, pin `"12345"` — the salt is the 14-character string
`"12345677654321"`. -/
theorem c8_envelope_salt_witness :
    ((build_request_envelope 1234567 7654321 "12345" "dev" 7 (some 3) none 0).salt =
        decimalString 1234567 ++ decimalString 7654321 ∧
      (build_request_envelope 1234567 7654321 "12345" "dev" 7 (some 3) none 0).token =
        calculate_token "12345"
          (build_request_envelope 1234567 7654321 "12345" "dev" 7 (some 3) none 0).salt ∧
      (build_request_envelope 1234567 7654321 "12345" "dev" 7 (some 3) none 0).session =
        1234567 ∧
      (build_request_envelope 1234567 7654321 "12345" "dev" 7 (some 3) none 0).id =
        7654321) ∧
    ((build_pairing_envelope 1234567 7654321 "12345" 0).salt =
        decimalString 1234567 ++ decimalString 7654321 ∧
      (build_pairing_envelope 1234567 7654321 "12345" 0).token =
        calculate_token "12345" (build_pairing_envelope 1234567 7654321 "12345" 0).salt) ∧
    (decimalString 1234567).length = 7 ∧
    (decimalString 7654321).length = 7 :=
  c8_envelope_salt_invariant 1234567 7654321 "12345" "dev" 7 (some 3) none 0 0
    (by omega) (by omega) (by omega) (by omega)

/-! ## Claim C9: local validation precedes all transport I/O -/

/-- C9 (counterexample): the claim requires every new PIN that is not
exactly 5 ASCII digits to raise `InvalidArgument` before any I/O, but the
source checks `len(new_pin) == 5 and new_pin.isdigit()`, and Python
`str.isdigit` is true for non-ASCII digits: the five-superscript-two string
`"²²²²²"` contains no ASCII digit yet passes validation, so the request is
built and proceeds to the transport. -/
theorem c9_validation_counterexample :
    "²²²²²".data.all isAsciiDigit = false ∧
    change_pin_request "²²²²²" =
      .ok { evt_type := 7, ctrl := some 13,
            pars := [("new_pass", Json.str "²²²²²")] } :=
  ⟨by decide, rfl⟩

/-- C9 (amended): every out-of-range input to a typed operation —
temperature outside `[4,10]`, water hardness outside `[1,9]`, dispense
amount outside `[100,1500]` or not a multiple of 100 or CO2 intensity not in
`{1,2,3}`, or a new PIN that is not of length 5 with every character a
Python digit (`str.isdigit`, which is broader than ASCII digits) — fails
with `InvalidArgument` in the pre-I/O phase, before any request exists to
write to the transport. -/
theorem c9_validation_before_io :
    (∀ t : Int, (t < 4 ∨ 10 < t) →
      set_temperature_request t =
        .error (.invalidArgument "Temperature must be between 4 and 10°C")) ∧
    (∀ l : Int, (l < 1 ∨ 9 < l) →
      set_water_hardness_request l =
        .error (.invalidArgument "Hardness level must be 1-9")) ∧
    (∀ a c : Int,
      (a < 100 ∨ 1500 < a ∨ a % 100 ≠ 0 ∨ (c ≠ 1 ∧ c ≠ 2 ∧ c ≠ 3)) →
      ∃ msg, dispense_water_request a c = .error (.invalidArgument msg)) ∧
    (∀ p : String, ¬(p.length = 5 ∧ p.data.all py_isdigit = true) →
      change_pin_request p = .error (.invalidArgument "PIN must be 5 digits")) := by
  refine ⟨?_, ?_, ?_, ?_⟩
  · intro t ht
    rw [set_temperature_request, if_pos (by omega)]
  · intro l hl
    rw [set_water_hardness_request, if_pos (by omega)]
  · intro a c h
    by_cases h1 : 100 ≤ a ∧ a ≤ 1500
    · rw [dispense_water_request, if_neg (not_not_intro h1)]
      by_cases h2 : a % 100 = 0
      · rw [if_neg (not_not_intro h2)]
        have h3 : ¬(c = 1 ∨ c = 2 ∨ c = 3) := by
          rcases h with h | h | h | h
          · omega
          · omega
          · exact absurd h2 h
          · tauto
        rw [if_pos h3]
        exact ⟨_, rfl⟩
      · rw [if_pos h2]
        exact ⟨_, rfl⟩
    · rw [dispense_water_request, if_pos h1]
      exact ⟨_, rfl⟩
  · intro p hp
    rw [change_pin_request, if_pos ?_]
    rcases not_and_or.mp hp with h | h
    · exact Or.inl h
    · exact Or.inr h

/-- C9 (witness): the amended validations at temperature 11, hardness 0,
dispense of 150 ml (not a multiple of 100), and the four-character PIN
`"1234"`. -/
theorem c9_validation_witness :
    set_temperature_request 11 =
      .error (.invalidArgument "Temperature must be between 4 and 10°C") ∧
    set_water_hardness_request 0 =
      .error (.invalidArgument "Hardness level must be 1-9") ∧
    (∃ msg, dispense_water_request 150 1 = .error (.invalidArgument msg)) ∧
    change_pin_request "1234" = .error (.invalidArgument "PIN must be 5 digits") :=
  ⟨c9_validation_before_io.1 11 (by omega),
   c9_validation_before_io.2.1 0 (by omega),
   c9_validation_before_io.2.2.1 150 1 (by omega),
   c9_validation_before_io.2.2.2 "1234" (by decide)⟩

/-! ## Claim C10: omission of empty `opts`/`pars` maps and of a unset `dev_id` -/

/-- C10: a serialized request body carries the `opts` and `pars` keys only
when they are set to nonempty maps — both `None` and the empty map are
omitted — so the pairing request, built with an empty `pars` map, serializes
a body whose only key is `meta`; and a meta without a device id omits the
`dev_id` key entirely (no `null` is emitted), leaving exactly the keys
`evt_type`, `dev_type`, `evt_ver`, `evt_ts`. -/
theorem c10_omit_empty_keys :
    (∀ (m : RequestMeta) (o : Option (List (String × Int)))
        (p : Option (List (String × Json))),
      (o = none ∨ o = some []) → (p = none ∨ p = some []) →
      (RequestBody.mk m o p).to_dict.map Prod.fst = ["meta"]) ∧
    (∀ (sid rid : Nat) (pin : String) (ts : Int),
      (build_pairing_envelope sid rid pin ts).body.to_dict.map Prod.fst = ["meta"]) ∧
    (∀ m : RequestMeta, m.dev_id = none →
      m.to_dict.map Prod.fst = ["evt_type", "dev_type", "evt_ver", "evt_ts"]) := by
  refine ⟨?_, ?_, ?_⟩
  · intro m o p ho hp
    rcases ho with rfl | rfl <;> rcases hp with rfl | rfl <;>
      simp [RequestBody.to_dict]
  · intro sid rid pin ts
    simp [build_pairing_envelope, RequestBody.to_dict]
  · intro m hdev
    simp [RequestMeta.to_dict, hdev]

/-- C10 (witness): the pairing body — empty `pars` map, no `opts`, no device
id — serializes with only the `meta` key, and its meta omits `dev_id`. -/
theorem c10_omit_empty_keys_witness :
    (RequestBody.mk ⟨10, none, 1, 1, 0⟩ none (some [])).to_dict.map Prod.fst =
      ["meta"] ∧
    (build_pairing_envelope 1234567 7654321 "12345" 0).body.to_dict.map Prod.fst =
      ["meta"] ∧
    (⟨10, none, 1, 1, 0⟩ : RequestMeta).to_dict.map Prod.fst =
      ["evt_type", "dev_type", "evt_ver", "evt_ts"] :=
  ⟨c10_omit_empty_keys.1 ⟨10, none, 1, 1, 0⟩ none (some []) (Or.inl rfl) (Or.inr rfl),
   c10_omit_empty_keys.2.1 1234567 7654321 "12345" 0,
   c10_omit_empty_keys.2.2 ⟨10, none, 1, 1, 0⟩ rfl⟩

end BlancoUnit
